import Mathlib

/-!
Verification development for the CS2 smoke-grenade simulator
(`physics_config.py`, `map_loader.py`, `physics_engine.py`, `smoke_finder.py`).

The physics backend (PyBullet) is an external capability; it is modelled as
an oracle (`WorldOracle`) supplying, per simulation step, success of the
step call, the queried body position (sim space) and the queried linear
velocity magnitude.  All code of the repository itself is embedded
directly: exact rational arithmetic stands in for Python floats on the
trajectory-simulator side, and real arithmetic on the position-search side
(where `atan2`, `sqrt` and degree conversions appear).
-/

set_option maxHeartbeats 1000000
set_option maxRecDepth 2048
set_option linter.unusedVariables false

/-- `ThrowType` enum from `physics_config.py`. -/
inductive ThrowType
  | LEFT_CLICK
  | BOTH_CLICKS
  | RIGHT_CLICK
deriving DecidableEq

/-- `PhysicsConfig` dataclass from `physics_config.py` (numeric fields as exact
rationals; `throw_speeds` is the dict built in `__post_init__`). -/
structure PhysicsConfig where
  gravity : ℚ
  time_step : ℚ
  grenade_mass : ℚ
  grenade_radius : ℚ
  grenade_restitution : ℚ
  grenade_friction : ℚ
  grenade_linear_damping : ℚ
  grenade_angular_damping : ℚ
  throw_speeds : ThrowType → ℚ
  player_height : ℚ
  hand_height : ℚ
  units_per_meter : ℚ
  meters_per_unit : ℚ

/-- The process-wide configuration instance `CS2_PHYSICS = PhysicsConfig.cs2_default()`:
gravity 800, time step 1/120, `units_per_meter = 39.37`, `meters_per_unit = 0.0254`,
throw speeds 1000/600/400. -/
def CS2_PHYSICS : PhysicsConfig where
  gravity := 800
  time_step := 1/120
  grenade_mass := 1/2
  grenade_radius := 1/10
  grenade_restitution := 45/100
  grenade_friction := 1/2
  grenade_linear_damping := 3/100
  grenade_angular_damping := 1/10
  throw_speeds := fun t =>
    match t with
    | .LEFT_CLICK => 1000
    | .BOTH_CLICKS => 600
    | .RIGHT_CLICK => 400
  player_height := 18/10
  hand_height := 56/100
  units_per_meter := 3937/100
  meters_per_unit := 127/5000

/-- `PhysicsConfig.get_throw_speed`: `self.throw_speeds.get(throw_type, 900.0)`.
The Python dict lookup can miss only for an argument that is not one of the
three `ThrowType` members (Python is dynamically typed); `none` models any
such unknown value, for which the dict `get` default `900.0` is returned. -/
def PhysicsConfig.get_throw_speed (c : PhysicsConfig) (throw_type : Option ThrowType) : ℚ :=
  match throw_type with
  | some t => c.throw_speeds t
  | none => 900

/-- Three-component vector with exact rational components (game or sim space). -/
structure Vec3 where
  x : ℚ
  y : ℚ
  z : ℚ
deriving DecidableEq

def zeroVec : Vec3 := ⟨0, 0, 0⟩

/-- `MapLoader.convert_cs2_to_bullet`: scale by `meters_per_unit` and swap the
up and forward axes, `(x, y, z) ↦ (x·s, z·s, y·s)`. -/
def convert_cs2_to_bullet (v : Vec3) : Vec3 :=
  ⟨v.x * CS2_PHYSICS.meters_per_unit,
   v.z * CS2_PHYSICS.meters_per_unit,
   v.y * CS2_PHYSICS.meters_per_unit⟩

/-- `MapLoader.convert_bullet_to_cs2`: scale by `units_per_meter` and swap back,
`(x, y, z) ↦ (x·s, z·s, y·s)`. -/
def convert_bullet_to_cs2 (v : Vec3) : Vec3 :=
  ⟨v.x * CS2_PHYSICS.units_per_meter,
   v.z * CS2_PHYSICS.units_per_meter,
   v.y * CS2_PHYSICS.units_per_meter⟩

/-- Python `int()` applied to a rational: truncation toward zero, as in
`num_steps = int(max_time / CS2_PHYSICS.time_step)`. -/
def pyInt (q : ℚ) : ℤ :=
  if q < 0 then ⌈q⌉ else ⌊q⌋

/-- The loop bound of `simulate_throw`:
`num_steps = int(max_time / CS2_PHYSICS.time_step)`, clamped to `ℕ`
(`range` of a negative count is empty). -/
def pyNumSteps (max_time : ℚ) : ℕ :=
  (pyInt (max_time / CS2_PHYSICS.time_step)).toNat

/-- External PyBullet world, as an oracle.  `stepOk i` tells whether the
`(i+1)`-th `p.stepSimulation()` call succeeds (failure injection for the
`SimulationFailure` analysis); `posB i` / `velMagB i` are the position returned
by `p.getBasePositionAndOrientation` and the value of
`np.linalg.norm(p.getBaseVelocity(...))` once `i+1` steps have run. -/
structure WorldOracle where
  createOk : Bool
  stepOk : ℕ → Bool
  posB : ℕ → Vec3
  velMagB : ℕ → ℚ

/-- Body bookkeeping of the PyBullet world: static map bodies, live dynamic
(grenade) bodies, and a cumulative count of dynamic bodies ever created
(ghost counter used to state leak properties). -/
structure SimState where
  staticBodies : ℕ
  dynamicBodies : ℕ
  dynCreated : ℕ
deriving DecidableEq

/-- Failure modes observable from a `simulate_throw` call: the spec's
`InvalidInput` (never raised by the code), a failing world operation, and the
Python `NameError`/`UnboundLocalError` raised when the loop variable `step` is
read after a zero-iteration loop. -/
inductive SimError
  | invalidInput
  | worldFailure
  | nameError
deriving DecidableEq

/-- Outcome of the simulation loop: CS2-space trajectory (one sample per
executed step), bounce counter, number of executed steps, and whether the
loop ended through the early `break` (ghost flag). -/
structure LoopOut where
  traj : List Vec3
  bounces : ℕ
  stepsRun : ℕ
  brokeEarly : Bool
deriving DecidableEq

/-- Python built-in `abs` on a rational (used instead of Mathlib lattice `|·|`
so that concrete runs evaluate by kernel reduction). -/
def ratAbs (q : ℚ) : ℚ :=
  if q < 0 then -q else q

/-- The early-exit test of the loop body:
`current_velocity_mag < (10 * CS2_PHYSICS.meters_per_unit) and step > 50`. -/
def stopCondB (w : WorldOracle) (i : ℕ) : Bool :=
  decide (w.velMagB i < 10 * CS2_PHYSICS.meters_per_unit) && decide (50 < i)

/-- The `for step in range(num_steps)` loop of `simulate_throw`, one source
iteration per recursive call: advance the world, append the queried position
(converted to CS2 space), update the bounce counter from the velocity-delta
heuristic, and `break` when `stopCondB` holds.  `i` is the 0-based value of
the Python loop variable `step`; `remaining` counts iterations left. -/
def simLoopGo (w : WorldOracle) (i : ℕ) (remaining : ℕ) (traj : List Vec3)
    (bounces : ℕ) (last_velocity_mag : ℚ) : Except SimError LoopOut :=
  match remaining with
  | 0 => .ok ⟨traj, bounces, i, false⟩
  | r + 1 =>
    if w.stepOk i = true then
      let pos_cs2 := convert_bullet_to_cs2 (w.posB i)
      let traj1 := traj ++ [pos_cs2]
      let mag := w.velMagB i
      let bounces1 :=
        if 100 * CS2_PHYSICS.meters_per_unit < ratAbs (mag - last_velocity_mag) then
          bounces + 1
        else bounces
      if stopCondB w i = true then
        .ok ⟨traj1, bounces1, i + 1, true⟩
      else
        simLoopGo w (i + 1) r traj1 bounces1 mag
    else
      .error .worldFailure

/-- The `info` dict built at the end of `simulate_throw`, plus the returned
trajectory and the ghost `broke_early` flag (the latter is instrumentation,
not a key of the source dict). -/
structure SimResult where
  final_position : Vec3
  final_velocity : ℚ
  bounces : ℕ
  simulation_time : ℚ
  trajectory_points : ℕ
  trajectory : List Vec3
  broke_early : Bool
deriving DecidableEq

/-- `EnhancedPhysicsEngine.simulate_throw`.  The start position is converted to
sim space and handed, with the initial velocity, to the external world (the
oracle already reflects the resulting motion, so `pitch`/`yaw` influence only
data owned by the world); a dynamic body is created (`createMultiBody`), the
fixed-step loop runs, the final position/velocity are queried, the body is
removed (`p.removeBody` — reached only when no world call raised), and the
info dict is built.  Reading the loop variable `step` after a zero-iteration
loop raises `NameError`; note that the body has already been removed at that
point, and that a failure inside the loop propagates with no cleanup. -/
def simulate_throw (w : WorldOracle) (st : SimState) (start_pos : Vec3)
    (pitch yaw : ℚ) (throw_type : Option ThrowType) (max_time : ℚ) :
    SimState × Except SimError SimResult :=
  let _start_bullet := convert_cs2_to_bullet start_pos
  let speed_bullet := CS2_PHYSICS.get_throw_speed throw_type * CS2_PHYSICS.meters_per_unit
  if w.createOk = true then
    let st1 : SimState :=
      { st with dynamicBodies := st.dynamicBodies + 1, dynCreated := st.dynCreated + 1 }
    match simLoopGo w 0 (pyNumSteps max_time) [] 0 speed_bullet with
    | .error e => (st1, .error e)
    | .ok out =>
      let st2 : SimState := { st1 with dynamicBodies := st1.dynamicBodies - 1 }
      if out.stepsRun = 0 then
        (st2, .error .nameError)
      else
        (st2, .ok {
          final_position := convert_bullet_to_cs2 (w.posB (out.stepsRun - 1))
          final_velocity := w.velMagB (out.stepsRun - 1) / CS2_PHYSICS.meters_per_unit
          bounces := out.bounces
          simulation_time := ((out.stepsRun - 1 : ℕ) : ℚ) * CS2_PHYSICS.time_step
          trajectory_points := out.traj.length
          trajectory := out.traj
          broke_early := out.brokeEarly })
  else
    (st, .error .worldFailure)

/-- Projection: the successful result of a `simulate_throw` call, if any. -/
def simResultOf (p : SimState × Except SimError SimResult) : Option SimResult :=
  match p.2 with
  | .ok r => some r
  | .error _ => none

/-- Projection: the error of a `simulate_throw` call, if any. -/
def simErrorOf (p : SimState × Except SimError SimResult) : Option SimError :=
  match p.2 with
  | .ok _ => none
  | .error e => some e

/-- Oracle for a run where every world operation succeeds and the queried
velocity magnitude stays at 100 m/s (never below the stop threshold). -/
def oracleCalm : WorldOracle where
  createOk := true
  stepOk := fun _ => true
  posB := fun _ => zeroVec
  velMagB := fun _ => 100

/-- Oracle for a run where every world operation succeeds and the queried
velocity magnitude is 0 from the first step on (below the stop threshold). -/
def oracleRest : WorldOracle where
  createOk := true
  stepOk := fun _ => true
  posB := fun _ => zeroVec
  velMagB := fun _ => 0

/-- Oracle whose very first `p.stepSimulation()` call fails. -/
def oracleBroken : WorldOracle where
  createOk := true
  stepOk := fun _ => false
  posB := fun _ => zeroVec
  velMagB := fun _ => 100

/-- A world with 4 static map bodies and 2 live dynamic bodies. -/
def stateA : SimState := ⟨4, 2, 7⟩

/-- The result of a one-step throw simulated against `oracleCalm` from the
origin with throw type `LEFT_CLICK` and a `1/120` second budget. -/
def calmResult1 : SimResult where
  final_position := zeroVec
  final_velocity := 500000/127
  bounces := 1
  simulation_time := 0
  trajectory_points := 1
  trajectory := [zeroVec]
  broke_early := false

/-! ### Real-valued side: direction computation and the position search -/

/-- Three-component real vector (the search and the direction computation work
with floats; exact reals stand in for them). -/
structure Vec3R where
  x : ℝ
  y : ℝ
  z : ℝ

/-- Squared Euclidean magnitude of a `Vec3R`. -/
def sqnormR (v : Vec3R) : ℝ :=
  v.x ^ 2 + v.y ^ 2 + v.z ^ 2

/-- `np.linalg.norm(a - b)`: Euclidean distance between two points. -/
noncomputable def distR (a b : Vec3R) : ℝ :=
  Real.sqrt ((a.x - b.x) ^ 2 + (a.y - b.y) ^ 2 + (a.z - b.z) ^ 2)

/-- `np.arctan2(y, x)`: the full-quadrant angle of the point `(x, y)`,
in `(-π, π]`, i.e. the complex argument of `x + y·i`. -/
noncomputable def atan2R (y x : ℝ) : ℝ :=
  Complex.arg ⟨x, y⟩

/-- `np.degrees`. -/
noncomputable def degreesR (r : ℝ) : ℝ :=
  r * (180 / Real.pi)

/-- `np.radians`. -/
noncomputable def radiansR (d : ℝ) : ℝ :=
  d * (Real.pi / 180)

/-- The game-space unit direction built in `simulate_throw` from pitch and yaw
(radians): `(cos(pitch)·cos(yaw), cos(pitch)·sin(yaw), sin(pitch))`. -/
noncomputable def direction_cs2 (pitch_rad yaw_rad : ℝ) : Vec3R :=
  ⟨Real.cos pitch_rad * Real.cos yaw_rad,
   Real.cos pitch_rad * Real.sin yaw_rad,
   Real.sin pitch_rad⟩

/-- The direction conversion of `simulate_throw`: pure axis swap
`(x, y, z) ↦ (x, z, y)`, with no scale factor. -/
def direction_bullet (d : Vec3R) : Vec3R :=
  ⟨d.x, d.z, d.y⟩

/-- `np.arange(start, stop, step)` for positive `step`: the arithmetic
progression `start + k·step` with `⌈(stop − start)/step⌉` terms. -/
noncomputable def arangeR (start stop step : ℝ) : List ℝ :=
  (List.range (⌈(stop - start) / step⌉).toNat).map fun k => start + (k : ℝ) * step

/-- `np.linspace(start, stop, num)` (endpoint included):
`start + k·(stop − start)/(num − 1)` for `k = 0, …, num − 1`. -/
noncomputable def linspaceR (start stop : ℝ) (num : ℕ) : List ℝ :=
  (List.range num).map fun k => start + (k : ℝ) * ((stop - start) / ((num : ℝ) - 1))

/-- `SearchStrategy` enum from `smoke_finder.py`. -/
inductive SearchStrategy
  | GRID_SEARCH
  | GENETIC
  | HYBRID
deriving DecidableEq

/-- The part of the `info` dict of a simulated throw that `SmokeFinder` reads:
landing position and bounce count. -/
structure SimInfoR where
  final_position : Vec3R
  bounces : ℕ

/-- The trajectory simulator as seen from `SmokeFinder` (`self.physics`):
arguments are throw position, pitch, yaw, throw type and time budget; `none`
models a raised exception (swallowed by the search's `try/except`). -/
abbrev SimulateFn : Type :=
  Vec3R → ℝ → ℝ → ThrowType → ℝ → Option (List Vec3R × SimInfoR)

/-- `SmokePosition` dataclass (the console-command strings are presentation
data derived from these fields and are not modelled). -/
structure SmokePosition where
  throw_position : Vec3R
  pitch : ℝ
  yaw : ℝ
  throw_type : ThrowType
  target_position : Vec3R
  landing_position : Vec3R
  accuracy : ℝ
  trajectory : List Vec3R
  bounces : ℕ

/-- `SmokeFinder.max_accuracy` (set in `__init__`). -/
def max_accuracy : ℝ := 150

/-- `SmokeFinder.search_radius` (set in `__init__`). -/
def search_radius : ℝ := 500

/-- `SmokeFinder.grid_step` (set in `__init__`). -/
def grid_step : ℝ := 100

/-- Python slice `l[::10]`: every 10th element, starting with the first. -/
def slice10 {α : Type _} (l : List α) : List α :=
  match l with
  | [] => []
  | a :: rest => a :: slice10 (rest.drop 9)
termination_by l.length
decreasing_by simp [List.length_drop]; omega

/-- One candidate `(throw position, pitch, yaw, time budget)` as passed by the
grid search to `simulate_throw`. -/
structure Candidate where
  throw_position : Vec3R
  pitch : ℝ
  yaw : ℝ
  budget : ℝ

/-- The candidate triples enumerated by `SmokeFinder._grid_search`:
`center = target` with `center[2] = 72`; `x`, `y` over
`np.arange(center − search_radius, center + search_radius, grid_step)`;
`base_yaw = degrees(arctan2(Δy, Δx))` with `Δ = target − throw_pos`;
`pitch` over `np.linspace(-20, 60, 10)`; budget `2.0`. -/
noncomputable def gridCandidates (target_pos : Vec3R) : List Candidate :=
  let center : Vec3R := ⟨target_pos.x, target_pos.y, 72⟩
  (arangeR (center.x - search_radius) (center.x + search_radius) grid_step).flatMap fun x =>
    (arangeR (center.y - search_radius) (center.y + search_radius) grid_step).flatMap fun y =>
      let throw_pos : Vec3R := ⟨x, y, center.z⟩
      let base_yaw := degreesR (atan2R (target_pos.y - throw_pos.y) (target_pos.x - throw_pos.x))
      (linspaceR (-20) 60 10).map fun pitch =>
        { throw_position := throw_pos, pitch := pitch, yaw := base_yaw, budget := 2 }

open Classical in
/-- The body of the candidate loop of `_grid_search`: simulate the throw
(an exception yields `none` — the candidate is dropped), compute
`accuracy = np.linalg.norm(info['final_position'] - target_pos)`, and accept
the candidate iff `accuracy < max_accuracy`, recording the decimated
trajectory `trajectory[::10]`. -/
noncomputable def evalCandidate (simulate : SimulateFn) (target_pos : Vec3R)
    (throw_type : ThrowType) (c : Candidate) : Option SmokePosition :=
  match simulate c.throw_position c.pitch c.yaw throw_type c.budget with
  | none => none
  | some (trajectory, info) =>
    let accuracy := distR info.final_position target_pos
    if accuracy < max_accuracy then
      some { throw_position := c.throw_position
             pitch := c.pitch
             yaw := c.yaw
             throw_type := throw_type
             target_position := target_pos
             landing_position := info.final_position
             accuracy := accuracy
             trajectory := slice10 trajectory
             bounces := info.bounces }
    else
      none

open Classical in
/-- The comparison used by `solutions.sort(key=lambda s: s.accuracy)`. -/
noncomputable def accLe (a b : SmokePosition) : Bool :=
  decide (a.accuracy ≤ b.accuracy)

/-- `SmokeFinder._grid_search`: enumerate the grid candidates, drop failing or
inaccurate ones, sort ascending by accuracy (stable), return the first
`max_results`. -/
noncomputable def grid_search (simulate : SimulateFn) (target_pos : Vec3R)
    (throw_type : ThrowType) (max_results : ℕ) : List SmokePosition :=
  (((gridCandidates target_pos).filterMap
      (evalCandidate simulate target_pos throw_type)).mergeSort accLe).take max_results

/-- `SmokeFinder._genetic_search`: "Упрощенная версия" — delegates to the grid
search. -/
noncomputable def genetic_search (simulate : SimulateFn) (target_pos : Vec3R)
    (throw_type : ThrowType) (max_results : ℕ) : List SmokePosition :=
  grid_search simulate target_pos throw_type max_results

/-- `SmokeFinder._hybrid_search`: delegates to the grid search. -/
noncomputable def hybrid_search (simulate : SimulateFn) (target_pos : Vec3R)
    (throw_type : ThrowType) (max_results : ℕ) : List SmokePosition :=
  grid_search simulate target_pos throw_type max_results

/-- `SmokeFinder.find_smokes`: dispatch on the strategy enum
(`GRID_SEARCH` → grid, `GENETIC` → genetic, anything else → hybrid). -/
noncomputable def find_smokes (simulate : SimulateFn) (target_pos : Vec3R)
    (throw_type : ThrowType) (strategy : SearchStrategy) (max_results : ℕ) :
    List SmokePosition :=
  match strategy with
  | .GRID_SEARCH => grid_search simulate target_pos throw_type max_results
  | .GENETIC => genetic_search simulate target_pos throw_type max_results
  | .HYBRID => hybrid_search simulate target_pos throw_type max_results

/-- The x (and y) sweep exactly as the spec words it: the half-open interval
`[center − 500, center + 500)` in steps of 100 game units — the 10 values
`center − 500 + k·100`. -/
noncomputable def specXs (center : ℝ) : List ℝ :=
  (List.range 10).map fun k => center - 500 + (k : ℝ) * 100

/-- The pitch sweep exactly as the spec words it: 10 evenly spaced samples
over `[-20°, 60°]` inclusive. -/
noncomputable def specPitches : List ℝ :=
  (List.range 10).map fun k => -20 + (k : ℝ) * ((60 - (-20)) / ((10 : ℝ) - 1))

/-- The candidate enumeration exactly as the spec words it: search center = the
target with its vertical coordinate replaced by the fixed standing height 72;
`x`, `y` each over the half-open `[center − 500, center + 500)` in steps of 100
with the throw position's vertical coordinate held at the center's;
yaw = `atan2(Δy, Δx)` from the grid point toward the target; pitch over the 10
evenly spaced samples; budget 2 seconds. -/
noncomputable def specGridCandidates (target_pos : Vec3R) : List Candidate :=
  let center : Vec3R := ⟨target_pos.x, target_pos.y, 72⟩
  (specXs center.x).flatMap fun x =>
    (specXs center.y).flatMap fun y =>
      let yaw := degreesR (atan2R (target_pos.y - y) (target_pos.x - x))
      specPitches.map fun pitch =>
        { throw_position := ⟨x, y, center.z⟩
          pitch := pitch
          yaw := yaw
          budget := 2 }

/-! ### Helper lemmas -/

/-- Componentwise relative error of the round trip, as one scalar fact:
multiplying by `0.0254` and then by `39.37` multiplies by `0.999998`. -/
theorem roundTripScalar (q : ℚ) :
    |q * CS2_PHYSICS.meters_per_unit * CS2_PHYSICS.units_per_meter - q| ≤ 2/1000000 * |q| := by
  have h : q * CS2_PHYSICS.meters_per_unit * CS2_PHYSICS.units_per_meter - q
      = (-1/500000) * q := by
    show q * (127/5000) * (3937/100) - q = (-1/500000) * q
    ring
  rw [h, abs_mul]
  have h2 : |(-1/500000 : ℚ)| ≤ 2/1000000 := by
    rw [abs_le]
    norm_num
  exact mul_le_mul_of_nonneg_right h2 (abs_nonneg q)

/-! ### Claim C10 -/

/-- C10: for every simulator, target position, throw type and result bound,
`find_smokes` with strategy `GENETIC` or `HYBRID` returns exactly the same
ranked list as with strategy `GRID_SEARCH`. -/
theorem C10_strategy_alias (simulate : SimulateFn) (target_pos : Vec3R)
    (throw_type : ThrowType) (max_results : ℕ) :
    find_smokes simulate target_pos throw_type SearchStrategy.GENETIC max_results
      = find_smokes simulate target_pos throw_type SearchStrategy.GRID_SEARCH max_results ∧
    find_smokes simulate target_pos throw_type SearchStrategy.HYBRID max_results
      = find_smokes simulate target_pos throw_type SearchStrategy.GRID_SEARCH max_results :=
  ⟨rfl, rfl⟩

/-! ### Claim C5 -/

/-- C5 counterexample: at the game-space vector `(1, 0, 0)` the round trip
`convert_bullet_to_cs2 (convert_cs2_to_bullet v)` is NOT within `1e-6`
relative tolerance of `v` componentwise (the x component is off by `2e-6`
relatively). -/
theorem C5_counterexample :
    ¬ (|(convert_bullet_to_cs2 (convert_cs2_to_bullet ⟨1, 0, 0⟩)).x - 1| ≤ 1/1000000 * |(1 : ℚ)| ∧
       |(convert_bullet_to_cs2 (convert_cs2_to_bullet ⟨1, 0, 0⟩)).y - 0| ≤ 1/1000000 * |(0 : ℚ)| ∧
       |(convert_bullet_to_cs2 (convert_cs2_to_bullet ⟨1, 0, 0⟩)).z - 0| ≤ 1/1000000 * |(0 : ℚ)|) := by
  have hx : (convert_bullet_to_cs2 (convert_cs2_to_bullet ⟨1, 0, 0⟩)).x = 499999/500000 := by
    show (1 : ℚ) * (127/5000) * (3937/100) = 499999/500000
    norm_num
  rintro ⟨h1, -, -⟩
  rw [hx, show (499999/500000 - 1 : ℚ) = -(1/500000) by norm_num, abs_neg,
    abs_of_nonneg (by norm_num : (0:ℚ) ≤ 1/500000), abs_one] at h1
  norm_num at h1

/-- C5 (amended): the round trip `convert_bullet_to_cs2 ∘ convert_cs2_to_bullet`
multiplies every component by exactly `0.0254 × 39.37 = 0.999998`, hence agrees
with the input within `2e-6` relative tolerance componentwise (not `1e-6`). -/
theorem C5_round_trip (v : Vec3) :
    convert_bullet_to_cs2 (convert_cs2_to_bullet v)
      = ⟨499999/500000 * v.x, 499999/500000 * v.y, 499999/500000 * v.z⟩ ∧
    |(convert_bullet_to_cs2 (convert_cs2_to_bullet v)).x - v.x| ≤ 2/1000000 * |v.x| ∧
    |(convert_bullet_to_cs2 (convert_cs2_to_bullet v)).y - v.y| ≤ 2/1000000 * |v.y| ∧
    |(convert_bullet_to_cs2 (convert_cs2_to_bullet v)).z - v.z| ≤ 2/1000000 * |v.z| := by
  refine ⟨?_, roundTripScalar v.x, roundTripScalar v.y, roundTripScalar v.z⟩
  show Vec3.mk _ _ _ = _
  simp only [convert_cs2_to_bullet, convert_bullet_to_cs2, Vec3.mk.injEq]
  refine ⟨?_, ?_, ?_⟩ <;>
    · show _ * (127/5000 : ℚ) * (3937/100) = _
      ring

/-! ### Claim C8 -/

/-- C8 counterexample: for the unit direction computed from pitch 0°, yaw 0°
(namely `(1, 0, 0)`), the sim-space direction has magnitude `1 = |d|`, not
`|d| × 0.0254` and not `|d| × 39.37`: the direction conversion applies no
scale factor at all. -/
theorem C8_counterexample :
    Real.sqrt (sqnormR (direction_bullet (direction_cs2 (radiansR 0) (radiansR 0)))) = 1 ∧
    Real.sqrt (sqnormR (direction_cs2 (radiansR 0) (radiansR 0))) = 1 ∧
    ¬ (Real.sqrt (sqnormR (direction_bullet (direction_cs2 (radiansR 0) (radiansR 0))))
        = Real.sqrt (sqnormR (direction_cs2 (radiansR 0) (radiansR 0)))
            * (CS2_PHYSICS.meters_per_unit : ℝ)) ∧
    ¬ (Real.sqrt (sqnormR (direction_bullet (direction_cs2 (radiansR 0) (radiansR 0))))
        = Real.sqrt (sqnormR (direction_cs2 (radiansR 0) (radiansR 0)))
            * (CS2_PHYSICS.units_per_meter : ℝ)) := by
  have h1 : sqnormR (direction_bullet (direction_cs2 (radiansR 0) (radiansR 0))) = 1 := by
    simp [radiansR, direction_cs2, direction_bullet, sqnormR]
  have h2 : sqnormR (direction_cs2 (radiansR 0) (radiansR 0)) = 1 := by
    simp [radiansR, direction_cs2, sqnormR]
  rw [h1, h2, Real.sqrt_one]
  refine ⟨rfl, rfl, ?_, ?_⟩ <;>
    · show ¬ ((1 : ℝ) = 1 * _)
      norm_num [CS2_PHYSICS]

/-- C8 (amended): the game-to-sim direction conversion is a pure axis
permutation: it preserves the squared magnitude exactly (scale factor 1, not
the position scale factor), and the direction computed from any pitch and yaw
is a unit vector.  The speed, not the direction, is what gets scaled by
`meters_per_unit` in `simulate_throw`. -/
theorem C8_direction_magnitude (pitch_rad yaw_rad : ℝ) :
    sqnormR (direction_bullet (direction_cs2 pitch_rad yaw_rad))
      = sqnormR (direction_cs2 pitch_rad yaw_rad) ∧
    sqnormR (direction_cs2 pitch_rad yaw_rad) = 1 := by
  constructor
  · simp only [direction_bullet, direction_cs2, sqnormR]
    ring
  · simp only [direction_cs2, sqnormR]
    linear_combination (Real.cos pitch_rad ^ 2) * Real.sin_sq_add_cos_sq yaw_rad
      + Real.sin_sq_add_cos_sq pitch_rad

/-! ### Claim C4 -/

/-- `np.arange` over a symmetric 500-radius window with step 100 yields the
10 points `c - 500 + k·100`, `k = 0, …, 9`. -/
theorem arangeR_window (c : ℝ) :
    arangeR (c - search_radius) (c + search_radius) grid_step = specXs c := by
  have h1 : ((c + search_radius) - (c - search_radius)) / grid_step = ((10 : ℤ) : ℝ) := by
    simp only [search_radius, grid_step]
    push_cast
    field_simp
    ring
  unfold arangeR specXs
  rw [h1, Int.ceil_intCast]
  have h2 : (10 : ℤ).toNat = 10 := rfl
  rw [h2]
  simp only [search_radius, grid_step]

/-- `np.linspace(-20, 60, 10)` is the spec's pitch sweep. -/
theorem linspaceR_pitches : linspaceR (-20) 60 10 = specPitches := by
  unfold linspaceR specPitches
  apply List.map_congr_left
  intro k hk
  norm_num

/-- C4: the grid search enumerates exactly the candidate triples described by
the spec: center = target with vertical coordinate 72, x and y over
`[center − 500, center + 500)` stepped by 100 holding z at the center's, yaw
pointing from the grid point toward the target, 10 evenly spaced pitches over
`[-20°, 60°]`, each with a 2-second budget. -/
theorem C4_grid_enumeration (target_pos : Vec3R) :
    gridCandidates target_pos = specGridCandidates target_pos := by
  simp only [gridCandidates, specGridCandidates, arangeR_window, linspaceR_pitches]

/-! ### The simulation loop under a fault-free world -/

/-- Full characterisation of the simulation loop when every `stepSimulation`
call succeeds: it returns `.ok`, runs between `i` and `i + remaining` steps
(final 0-based index `stepsRun − 1`), appends one trajectory sample per
executed step, runs all `remaining` iterations unless it breaks, and breaks
exactly at the first index satisfying `stopCondB`. -/
theorem simLoopGo_spec (w : WorldOracle) (hw : ∀ n, w.stepOk n = true) :
    ∀ (r i : ℕ) (traj : List Vec3) (b : ℕ) (m : ℚ),
    ∃ out : LoopOut, simLoopGo w i r traj b m = .ok out ∧
      i ≤ out.stepsRun ∧ out.stepsRun ≤ i + r ∧
      out.traj.length = traj.length + (out.stepsRun - i) ∧
      (out.brokeEarly = false → out.stepsRun = i + r) ∧
      (out.brokeEarly = true →
        i < out.stepsRun ∧ stopCondB w (out.stepsRun - 1) = true ∧
        ∀ j, i ≤ j → j + 1 < out.stepsRun → stopCondB w j = false) ∧
      (out.brokeEarly = true ↔ ∃ j, i ≤ j ∧ j < i + r ∧ stopCondB w j = true) := by
  intro r
  induction r with
  | zero =>
    intro i traj b m
    refine ⟨⟨traj, b, i, false⟩, rfl, ?_, ?_, ?_, ?_, ?_, ?_⟩ <;> dsimp only
    · exact le_refl i
    · omega
    · omega
    · intro _
      omega
    · intro h
      exact absurd h (by simp)
    · constructor
      · intro h
        exact absurd h (by simp)
      · rintro ⟨j, hj1, hj2, -⟩
        omega
  | succ r ih =>
    intro i traj b m
    simp only [simLoopGo]
    rw [if_pos (hw i)]
    by_cases hstop : stopCondB w i = true
    · rw [if_pos hstop]
      refine ⟨⟨traj ++ [convert_bullet_to_cs2 (w.posB i)],
        if 100 * CS2_PHYSICS.meters_per_unit < ratAbs (w.velMagB i - m) then b + 1 else b,
        i + 1, true⟩, rfl, ?_, ?_, ?_, ?_, ?_, ?_⟩ <;> dsimp only
      · omega
      · omega
      · simp only [List.length_append, List.length_cons, List.length_nil]
        omega
      · intro h
        exact absurd h (by simp)
      · intro _
        refine ⟨by omega, ?_, ?_⟩
        · have h1 : i + 1 - 1 = i := by omega
          rw [h1]
          exact hstop
        · intro j hj1 hj2
          omega
      · constructor
        · intro _
          exact ⟨i, le_refl i, by omega, hstop⟩
        · intro _
          rfl
    · rw [if_neg hstop]
      obtain ⟨out, heq, h1, h2, h3, h4, h5, h6⟩ := ih (i + 1)
        (traj ++ [convert_bullet_to_cs2 (w.posB i)])
        (if 100 * CS2_PHYSICS.meters_per_unit < ratAbs (w.velMagB i - m) then b + 1 else b)
        (w.velMagB i)
      have hlen : (traj ++ [convert_bullet_to_cs2 (w.posB i)]).length = traj.length + 1 := by
        simp
      rw [hlen] at h3
      refine ⟨out, heq, ?_, ?_, ?_, ?_, ?_, ?_⟩
      · clear h6
        omega
      · clear h6
        omega
      · clear h6
        omega
      · intro hb
        have h7 := h4 hb
        clear h6
        omega
      · intro hb
        obtain ⟨hlt, hcond, hmin⟩ := h5 hb
        clear h6
        refine ⟨by omega, hcond, ?_⟩
        intro j hj1 hj2
        rcases Nat.eq_or_lt_of_le hj1 with hj | hj
        · rw [← hj]
          exact Bool.eq_false_iff.mpr hstop
        · exact hmin j hj hj2
      · rw [h6]
        constructor
        · rintro ⟨j, hj1, hj2, hj3⟩
          exact ⟨j, by omega, by omega, hj3⟩
        · rintro ⟨j, hj1, hj2, hj3⟩
          refine ⟨j, ?_, by omega, hj3⟩
          rcases Nat.eq_or_lt_of_le hj1 with hj | hj
          · exfalso
            rw [← hj] at hj3
            exact hstop hj3
          · omega

/-! ### pyNumSteps arithmetic -/

/-- For a non-positive time budget, `int(max_time / time_step)` clamps to a
zero-iteration loop. -/
theorem pyNumSteps_of_nonpos {max_time : ℚ} (h : max_time ≤ 0) : pyNumSteps max_time = 0 := by
  have hts : (0:ℚ) < CS2_PHYSICS.time_step := by norm_num [CS2_PHYSICS]
  have hq : max_time / CS2_PHYSICS.time_step ≤ 0 :=
    div_nonpos_iff.mpr (Or.inr ⟨h, hts.le⟩)
  unfold pyNumSteps pyInt
  by_cases hlt : max_time / CS2_PHYSICS.time_step < 0
  · rw [if_pos hlt]
    apply Int.toNat_of_nonpos
    exact Int.ceil_le.mpr (by exact_mod_cast hq)
  · rw [if_neg hlt]
    have h0 : max_time / CS2_PHYSICS.time_step = 0 := le_antisymm hq (not_lt.mp hlt)
    rw [h0]
    simp

/-- For a positive time budget, `int()` is the floor. -/
theorem pyNumSteps_cast {max_time : ℚ} (h : 0 < max_time) :
    (pyNumSteps max_time : ℤ) = ⌊max_time / CS2_PHYSICS.time_step⌋ := by
  have hts : (0:ℚ) < CS2_PHYSICS.time_step := by norm_num [CS2_PHYSICS]
  have hq : 0 < max_time / CS2_PHYSICS.time_step := div_pos h hts
  unfold pyNumSteps pyInt
  rw [if_neg (not_lt.mpr hq.le)]
  exact Int.toNat_of_nonneg (Int.floor_nonneg.mpr hq.le)

/-! ### Claim C1 -/

/-- C1 counterexample: with a world whose first `stepSimulation` call fails,
the dynamic grenade body created by `simulate_throw` is NOT destroyed — the
call returns with one more live dynamic body than before (the failure
propagates with no cleanup, there being no `try/finally`). -/
theorem C1_counterexample :
    (simulate_throw oracleBroken stateA zeroVec 0 0 (some ThrowType.LEFT_CLICK) 1).1.dynamicBodies
        = stateA.dynamicBodies + 1 ∧
    simErrorOf (simulate_throw oracleBroken stateA zeroVec 0 0 (some ThrowType.LEFT_CLICK) 1)
        = some SimError.worldFailure := by
  with_unfolding_all decide

/-- C1 (amended): when every `stepSimulation` call of the run succeeds — the
call may still end in `NameError` or fail at body creation — the net number of
dynamic bodies after a `simulate_throw` call equals the number before it, and
static geometry bodies are unchanged.  (When a world operation fails after
body creation, the body is leaked: see the counterexample.) -/
theorem C1_no_leak_on_success (w : WorldOracle) (st : SimState) (start_pos : Vec3)
    (pitch yaw : ℚ) (throw_type : Option ThrowType) (max_time : ℚ)
    (hw : ∀ n, w.stepOk n = true) :
    (simulate_throw w st start_pos pitch yaw throw_type max_time).1.dynamicBodies
        = st.dynamicBodies ∧
    (simulate_throw w st start_pos pitch yaw throw_type max_time).1.staticBodies
        = st.staticBodies := by
  obtain ⟨out, heq, -, -, -, -, -, -⟩ := simLoopGo_spec w hw (pyNumSteps max_time) 0 [] 0
    (CS2_PHYSICS.get_throw_speed throw_type * CS2_PHYSICS.meters_per_unit)
  simp only [simulate_throw]
  by_cases hc : w.createOk = true
  · rw [if_pos hc, heq]
    dsimp only
    by_cases h0 : out.stepsRun = 0
    · rw [if_pos h0]
      exact ⟨by dsimp only; omega, rfl⟩
    · rw [if_neg h0]
      exact ⟨by dsimp only; omega, rfl⟩
  · rw [if_neg hc]
    exact ⟨rfl, rfl⟩

/-- C1 witness: the amended theorem applied to a concrete fault-free run. -/
theorem C1_witness :
    (simulate_throw oracleCalm stateA zeroVec 0 0 (some ThrowType.LEFT_CLICK) 1).1.dynamicBodies
        = stateA.dynamicBodies ∧
    (simulate_throw oracleCalm stateA zeroVec 0 0 (some ThrowType.LEFT_CLICK) 1).1.staticBodies
        = stateA.staticBodies :=
  C1_no_leak_on_success oracleCalm stateA zeroVec 0 0 (some ThrowType.LEFT_CLICK) 1
    (fun _ => rfl)

/-! ### Claim C2 -/

/-- C2 counterexample: `simulate_throw` with `max_time = 0` does NOT fail with
`InvalidInput` and does NOT create zero dynamic bodies: it creates one dynamic
body (destroying it again) and then fails with the unbound-loop-variable
`NameError`. -/
theorem C2_counterexample :
    simErrorOf (simulate_throw oracleCalm stateA zeroVec 0 0 (some ThrowType.LEFT_CLICK) 0)
        = some SimError.nameError ∧
    simErrorOf (simulate_throw oracleCalm stateA zeroVec 0 0 (some ThrowType.LEFT_CLICK) 0)
        ≠ some SimError.invalidInput ∧
    (simulate_throw oracleCalm stateA zeroVec 0 0 (some ThrowType.LEFT_CLICK) 0).1.dynCreated
        = stateA.dynCreated + 1 := by
  with_unfolding_all decide

/-- C2 (amended): with `maxSimSeconds ≤ 0` (and body creation succeeding),
`simulate_throw` performs no validation: it creates one dynamic body, runs
zero simulation steps, destroys the body again (net zero live bodies), and
then fails with the Python `NameError` from reading the loop variable `step`
— not with `InvalidInput`. -/
theorem C2_nonpositive_time (w : WorldOracle) (st : SimState) (start_pos : Vec3)
    (pitch yaw : ℚ) (throw_type : Option ThrowType) (max_time : ℚ)
    (hmt : max_time ≤ 0) (hc : w.createOk = true) :
    simErrorOf (simulate_throw w st start_pos pitch yaw throw_type max_time)
        = some SimError.nameError ∧
    (simulate_throw w st start_pos pitch yaw throw_type max_time).1.dynamicBodies
        = st.dynamicBodies ∧
    (simulate_throw w st start_pos pitch yaw throw_type max_time).1.dynCreated
        = st.dynCreated + 1 := by
  have h0 : pyNumSteps max_time = 0 := pyNumSteps_of_nonpos hmt
  refine ⟨?_, ?_, ?_⟩ <;> simp [simulate_throw, simErrorOf, h0, hc, simLoopGo]

/-- C2 witness: the amended theorem applied at `max_time = 0` with a concrete
world. -/
theorem C2_witness :
    (0:ℚ) ≤ 0 ∧ oracleCalm.createOk = true ∧
    simErrorOf (simulate_throw oracleCalm stateA zeroVec 0 0 (some ThrowType.LEFT_CLICK) 0)
        = some SimError.nameError :=
  ⟨le_refl 0, rfl,
   (C2_nonpositive_time oracleCalm stateA zeroVec 0 0 (some ThrowType.LEFT_CLICK) 0
     (le_refl 0) rfl).1⟩

/-! ### Success-path decomposition of simulate_throw -/

/-- If a `simulate_throw` call against a fault-free world returns a result,
that result comes from the loop's output: at least one step ran,
`trajectory_points` counts the executed steps, the step count is bounded by
`int(max_time/time_step)` and reaches it unless the loop broke, and the loop
broke exactly at the first index satisfying the early-exit test. -/
theorem simulate_throw_ok_result (w : WorldOracle) (st : SimState) (start_pos : Vec3)
    (pitch yaw : ℚ) (throw_type : Option ThrowType) (max_time : ℚ) (r : SimResult)
    (hw : ∀ n, w.stepOk n = true)
    (hr : simResultOf (simulate_throw w st start_pos pitch yaw throw_type max_time) = some r) :
    ∃ out : LoopOut,
      out.stepsRun ≠ 0 ∧
      r.trajectory_points = out.stepsRun ∧
      r.broke_early = out.brokeEarly ∧
      out.stepsRun ≤ pyNumSteps max_time ∧
      (out.brokeEarly = false → out.stepsRun = pyNumSteps max_time) ∧
      (out.brokeEarly = true →
        stopCondB w (out.stepsRun - 1) = true ∧
        ∀ j, j + 1 < out.stepsRun → stopCondB w j = false) ∧
      (out.brokeEarly = true ↔ ∃ j, j < pyNumSteps max_time ∧ stopCondB w j = true) := by
  obtain ⟨out, heq, hge, hle, hlen, hnb, hbrk, hiff⟩ := simLoopGo_spec w hw
    (pyNumSteps max_time) 0 [] 0
    (CS2_PHYSICS.get_throw_speed throw_type * CS2_PHYSICS.meters_per_unit)
  have hlen1 : out.traj.length = out.stepsRun := by simpa using hlen
  simp only [simulate_throw, simResultOf] at hr
  by_cases hc : w.createOk = true
  · rw [if_pos hc, heq] at hr
    dsimp only at hr
    by_cases h0 : out.stepsRun = 0
    · rw [if_pos h0] at hr
      exact absurd hr (by simp)
    · rw [if_neg h0] at hr
      dsimp only at hr
      obtain rfl := Option.some.inj hr
      refine ⟨out, h0, hlen1, rfl, by omega, fun hb => by have := hnb hb; omega, ?_, ?_⟩
      · intro hb
        obtain ⟨-, hcond, hmin⟩ := hbrk hb
        exact ⟨hcond, fun j hj => hmin j (Nat.zero_le j) hj⟩
      · rw [hiff]
        constructor
        · rintro ⟨j, -, hj2, hj3⟩
          exact ⟨j, by omega, hj3⟩
        · rintro ⟨j, hj2, hj3⟩
          exact ⟨j, Nat.zero_le j, by omega, hj3⟩
  · rw [if_neg hc] at hr
    exact absurd hr (by simp)

/-! ### Claim C6 -/

/-- C6 counterexample: with `maxSimSeconds = 1/80` (a positive budget equal to
1.5 time steps) against a fault-free world that never triggers the early exit,
the loop runs exactly 1 iteration — `int(max_time/time_step)`, the floor — and
not `ceil(max_time/time_step) = 2` as claimed. -/
theorem C6_counterexample :
    Option.map (fun r => (r.trajectory_points, r.broke_early))
      (simResultOf (simulate_throw oracleCalm stateA zeroVec 0 0 (some ThrowType.LEFT_CLICK) (1/80)))
        = some (1, false) ∧
    (⌈(1/80 : ℚ) / CS2_PHYSICS.time_step⌉ : ℤ) = 2 := by
  constructor
  · with_unfolding_all decide
  · with_unfolding_all decide

/-- C6 (amended): for every positive time budget against a fault-free world,
a returned result ran at most `int(maxSimSeconds/timeStep)` loop iterations —
`int()` truncates, so this is the FLOOR of `maxSimSeconds/timeStep`, not the
ceiling — and ran exactly that many unless the early exit broke the loop. -/
theorem C6_loop_bound (w : WorldOracle) (st : SimState) (start_pos : Vec3)
    (pitch yaw : ℚ) (throw_type : Option ThrowType) (max_time : ℚ) (r : SimResult)
    (hw : ∀ n, w.stepOk n = true) (hmt : 0 < max_time)
    (hr : simResultOf (simulate_throw w st start_pos pitch yaw throw_type max_time) = some r) :
    r.trajectory_points ≤ pyNumSteps max_time ∧
    (r.broke_early = false → r.trajectory_points = pyNumSteps max_time) ∧
    (pyNumSteps max_time : ℤ) = ⌊max_time / CS2_PHYSICS.time_step⌋ := by
  obtain ⟨out, h0, htp, hbk, hle, hnb, -, -⟩ :=
    simulate_throw_ok_result w st start_pos pitch yaw throw_type max_time r hw hr
  refine ⟨?_, ?_, pyNumSteps_cast hmt⟩
  · omega
  · intro hbf
    rw [hbk] at hbf
    have h2 := hnb hbf
    omega

/-- C6 witness: the amended theorem applied to a concrete one-step run. -/
theorem C6_witness :
    (0:ℚ) < 1/120 ∧
    simResultOf (simulate_throw oracleCalm stateA zeroVec 0 0 (some ThrowType.LEFT_CLICK) (1/120))
        = some calmResult1 ∧
    (calmResult1.trajectory_points ≤ pyNumSteps (1/120) ∧
     (calmResult1.broke_early = false → calmResult1.trajectory_points = pyNumSteps (1/120)) ∧
     (pyNumSteps (1/120) : ℤ) = ⌊(1/120 : ℚ) / CS2_PHYSICS.time_step⌋) :=
  ⟨by norm_num, by
    norm_num [simulate_throw, simResultOf, calmResult1, pyNumSteps, pyInt, simLoopGo, stopCondB,
      oracleCalm, stateA, zeroVec, CS2_PHYSICS, ratAbs, convert_bullet_to_cs2,
      PhysicsConfig.get_throw_speed],
   C6_loop_bound oracleCalm stateA zeroVec 0 0 (some ThrowType.LEFT_CLICK) (1/120) calmResult1
     (fun _ => rfl) (by norm_num) (by
    norm_num [simulate_throw, simResultOf, calmResult1, pyNumSteps, pyInt, simLoopGo, stopCondB,
      oracleCalm, stateA, zeroVec, CS2_PHYSICS, ratAbs, convert_bullet_to_cs2,
      PhysicsConfig.get_throw_speed])⟩

/-! ### Claim C7 -/

/-- C7 counterexample: against a fault-free world whose queried velocity
magnitude is 0 from the very first step (below the stop threshold), a 1-second
throw runs 52 steps before the early exit fires (`step > 50` with the 0-based
loop variable), even though the velocity was already below the threshold when
50 steps had elapsed — the loop does NOT exit as soon as "velocity below
threshold AND at least 50 steps elapsed". -/
theorem C7_counterexample :
    Option.map (fun r => (r.trajectory_points, r.broke_early))
      (simResultOf (simulate_throw oracleRest stateA zeroVec 0 0 (some ThrowType.LEFT_CLICK) 1))
        = some (52, true) ∧
    oracleRest.velMagB 49 < 10 * CS2_PHYSICS.meters_per_unit ∧
    (52 : ℕ) ≠ 50 := by
  refine ⟨?_, ?_, by decide⟩
  · with_unfolding_all decide
  · with_unfolding_all decide

/-- C7 (amended): against a fault-free world, a returned result has
`broke_early` iff some step index `j` within the budget satisfies the code's
test `velMag j < 10·meters_per_unit ∧ j > 50` (0-based), and when it broke,
the break happened right after the FIRST such index: the final 0-based step
index `trajectory_points − 1` satisfies the test (so is `> 50`, i.e. at least
52 steps ran — not 50) and no earlier index does. -/
theorem C7_early_exit (w : WorldOracle) (st : SimState) (start_pos : Vec3)
    (pitch yaw : ℚ) (throw_type : Option ThrowType) (max_time : ℚ) (r : SimResult)
    (hw : ∀ n, w.stepOk n = true)
    (hr : simResultOf (simulate_throw w st start_pos pitch yaw throw_type max_time) = some r) :
    (r.broke_early = true ↔ ∃ j, j < pyNumSteps max_time ∧ stopCondB w j = true) ∧
    (r.broke_early = true →
      stopCondB w (r.trajectory_points - 1) = true ∧
      50 < r.trajectory_points - 1 ∧
      ∀ j, j + 1 < r.trajectory_points → stopCondB w j = false) := by
  obtain ⟨out, h0, htp, hbk, hle, hnb, hbrk, hiff⟩ :=
    simulate_throw_ok_result w st start_pos pitch yaw throw_type max_time r hw hr
  rw [htp, hbk]
  refine ⟨hiff, ?_⟩
  intro hbf
  obtain ⟨hcond, hmin⟩ := hbrk hbf
  have h50 : 50 < out.stepsRun - 1 := by
    have hc2 := hcond
    unfold stopCondB at hc2
    simp only [Bool.and_eq_true, decide_eq_true_eq] at hc2
    exact hc2.2
  exact ⟨hcond, h50, hmin⟩

/-- C7 witness: the amended theorem applied to a concrete one-step run that
does not break early. -/
theorem C7_witness :
    simResultOf (simulate_throw oracleCalm stateA zeroVec 0 0 (some ThrowType.LEFT_CLICK) (1/120))
        = some calmResult1 ∧
    ((calmResult1.broke_early = true ↔
        ∃ j, j < pyNumSteps (1/120) ∧ stopCondB oracleCalm j = true) ∧
     (calmResult1.broke_early = true →
        stopCondB oracleCalm (calmResult1.trajectory_points - 1) = true ∧
        50 < calmResult1.trajectory_points - 1 ∧
        ∀ j, j + 1 < calmResult1.trajectory_points → stopCondB oracleCalm j = false)) :=
  ⟨by
    norm_num [simulate_throw, simResultOf, calmResult1, pyNumSteps, pyInt, simLoopGo, stopCondB,
      oracleCalm, stateA, zeroVec, CS2_PHYSICS, ratAbs, convert_bullet_to_cs2,
      PhysicsConfig.get_throw_speed],
   C7_early_exit oracleCalm stateA zeroVec 0 0 (some ThrowType.LEFT_CLICK) (1/120) calmResult1
     (fun _ => rfl) (by
    norm_num [simulate_throw, simResultOf, calmResult1, pyNumSteps, pyInt, simLoopGo, stopCondB,
      oracleCalm, stateA, zeroVec, CS2_PHYSICS, ratAbs, convert_bullet_to_cs2,
      PhysicsConfig.get_throw_speed])⟩

/-! ### Claim C9 -/

/-- C9 counterexample: a `simulate_throw` call whose throw type has no entry
in the speed table is NOT rejected with `InvalidInput` before simulation work
begins: `get_throw_speed` returns the dict default `900.0`, the loop runs
(one step here), and the call succeeds. -/
theorem C9_counterexample :
    CS2_PHYSICS.get_throw_speed none = 900 ∧
    Option.map SimResult.trajectory_points
      (simResultOf (simulate_throw oracleCalm stateA zeroVec 0 0 none (1/120))) = some 1 ∧
    simErrorOf (simulate_throw oracleCalm stateA zeroVec 0 0 none (1/120))
        ≠ some SimError.invalidInput := by
  refine ⟨by with_unfolding_all decide, ?_, ?_⟩
  · with_unfolding_all decide
  · with_unfolding_all decide

/-- C9 (amended): an unknown throw type (no entry in the per-ThrowType speed
table) is not rejected: the speed lookup falls back to the default `900.0`
and, against a fault-free world with a budget of at least one time step, the
simulation proceeds and returns a result. -/
theorem C9_unknown_throw_type (w : WorldOracle) (st : SimState) (start_pos : Vec3)
    (pitch yaw : ℚ) (max_time : ℚ)
    (hw : ∀ n, w.stepOk n = true) (hc : w.createOk = true)
    (hn : 0 < pyNumSteps max_time) :
    CS2_PHYSICS.get_throw_speed none = 900 ∧
    (simResultOf (simulate_throw w st start_pos pitch yaw none max_time)).isSome = true := by
  obtain ⟨out, heq, hge, hle, hlen, hnb, hbrk, -⟩ := simLoopGo_spec w hw (pyNumSteps max_time)
    0 [] 0 (CS2_PHYSICS.get_throw_speed none * CS2_PHYSICS.meters_per_unit)
  have h0 : ¬ out.stepsRun = 0 := by
    cases hb : out.brokeEarly with
    | false =>
      have h2 := hnb hb
      omega
    | true =>
      have h2 := (hbrk hb).1
      omega
  refine ⟨rfl, ?_⟩
  simp only [simulate_throw, simResultOf]
  rw [if_pos hc, heq]
  dsimp only
  rw [if_neg h0]
  rfl

/-- C9 witness: the amended theorem applied to a concrete one-step run with
an unknown throw type. -/
theorem C9_witness :
    oracleCalm.createOk = true ∧ 0 < pyNumSteps (1/120) ∧
    (CS2_PHYSICS.get_throw_speed none = 900 ∧
     (simResultOf (simulate_throw oracleCalm stateA zeroVec 0 0 none (1/120))).isSome = true) :=
  ⟨rfl, by with_unfolding_all decide,
   C9_unknown_throw_type oracleCalm stateA zeroVec 0 0 (1/120) (fun _ => rfl) rfl
     (by with_unfolding_all decide)⟩

/-! ### Claim C3 -/

/-- C3: for every simulator, target position, throw type and result bound, the
grid search returns at most `max_results` entries, sorted ascending by
accuracy, and every returned entry's accuracy is exactly the Euclidean
distance from its simulated landing position to the target and is strictly
below 150 game units. -/
theorem C3_grid_search_results (simulate : SimulateFn) (target_pos : Vec3R)
    (throw_type : ThrowType) (max_results : ℕ) :
    (grid_search simulate target_pos throw_type max_results).length ≤ max_results ∧
    List.Sorted (fun a b => a.accuracy ≤ b.accuracy)
      (grid_search simulate target_pos throw_type max_results) ∧
    (grid_search simulate target_pos throw_type max_results).Forall
      (fun s => s.accuracy = distR s.landing_position target_pos ∧ s.accuracy < 150) := by
  unfold grid_search
  refine ⟨?_, ?_, ?_⟩
  · rw [List.length_take]
    omega
  · have htrans : ∀ a b c : SmokePosition, accLe a b → accLe b c → accLe a c := by
      intro a b c hab hbc
      simp only [accLe, decide_eq_true_eq] at *
      exact le_trans hab hbc
    have htotal : ∀ a b : SmokePosition, accLe a b || accLe b a := by
      intro a b
      simp only [accLe, Bool.or_eq_true, decide_eq_true_eq]
      exact le_total a.accuracy b.accuracy
    have hs := List.sorted_mergeSort htrans htotal
      ((gridCandidates target_pos).filterMap (evalCandidate simulate target_pos throw_type))
    have hs2 : List.Pairwise (fun a b : SmokePosition => a.accuracy ≤ b.accuracy)
        (((gridCandidates target_pos).filterMap
          (evalCandidate simulate target_pos throw_type)).mergeSort accLe) := by
      refine hs.imp ?_
      intro a b h
      simpa [accLe] using h
    exact hs2.sublist (List.take_sublist _ _)
  · rw [List.forall_iff_forall_mem]
    intro s hsmem
    have hsm2 : s ∈ (((gridCandidates target_pos).filterMap
        (evalCandidate simulate target_pos throw_type)).mergeSort accLe) :=
      List.take_subset _ _ hsmem
    rw [List.mem_mergeSort] at hsm2
    obtain ⟨c, -, hce⟩ := List.mem_filterMap.mp hsm2
    unfold evalCandidate at hce
    cases hsim : simulate c.throw_position c.pitch c.yaw throw_type c.budget with
    | none =>
      rw [hsim] at hce
      exact absurd hce (by simp)
    | some pr =>
      obtain ⟨traj, info⟩ := pr
      rw [hsim] at hce
      dsimp only at hce
      by_cases hacc : distR info.final_position target_pos < max_accuracy
      · rw [if_pos hacc] at hce
        obtain rfl := Option.some.inj hce
        exact ⟨rfl, by simpa [max_accuracy] using hacc⟩
      · rw [if_neg hacc] at hce
        exact absurd hce (by simp)
